import Mathlib

/-!
Shallow embedding of the simulation drivers in `src/sim/main.cpp` and
`src/sim/main_unit.cpp`, and proofs about them.

The drivers treat the hardware model as an opaque steppable object, so the
embedding records every externally visible action of the driver (calls into
the Verilator runtime, trace-sink calls, console output) as an event in a
trace, and models the device under test as an opaque state machine whose
`eval` may raise the process-wide finish flag.
-/

namespace SimDriver

/-- One externally visible action of a driver run.  Each constructor
corresponds to one call the C++ driver makes into the Verilator runtime,
the trace sink, or the console. -/
inductive Event where
  | commandArgs (argv : List String)
  | traceEverOn
  | createDut
  | attachTrace (depth : Nat)
  | openTrace (path : String)
  | printLine (s : String)
  | eval
  | dump (t : Nat)
  | timeInc (n : Nat)
  | finalizeModel
  | closeTrace
deriving DecidableEq

/-- The device under test, as the driver sees it: an opaque state together
with an `eval` that settles the model at the context's current time and
reports whether the model raised the finish flag during that pass. -/
structure Model (σ : Type) where
  init : σ
  eval : σ → Nat → σ × Bool

/-- Result of a completed driver run: the full event trace, the final value
of the context's time counter, and the process exit code. -/
structure SimResult where
  events : List Event
  finalTime : Nat
  exitCode : Int
deriving DecidableEq

/-- Lines the run printed to standard output, in order. -/
def stdoutLines (evs : List Event) : List String :=
  evs.filterMap fun e =>
    match e with
    | Event.printLine s => some s
    | _ => none

/-- Timestamps passed to `dump`, in call order. -/
def dumpTimes (evs : List Event) : List Nat :=
  evs.filterMap fun e =>
    match e with
    | Event.dump t => some t
    | _ => none

def isEval : Event → Bool
  | Event.eval => true
  | _ => false

def isDump : Event → Bool
  | Event.dump _ => true
  | _ => false

def isTimeInc : Event → Bool
  | Event.timeInc _ => true
  | _ => false

def isOpenTrace : Event → Bool
  | Event.openTrace _ => true
  | _ => false

def isCloseTrace : Event → Bool
  | Event.closeTrace => true
  | _ => false

def isFinalize : Event → Bool
  | Event.finalizeModel => true
  | _ => false

def countEvals (evs : List Event) : Nat := evs.countP isEval
def countDumps (evs : List Event) : Nat := evs.countP isDump
def countTimeIncs (evs : List Event) : Nat := evs.countP isTimeInc
def countOpens (evs : List Event) : Nat := evs.countP isOpenTrace
def countCloses (evs : List Event) : Nat := evs.countP isCloseTrace
def countFinalizes (evs : List Event) : Nat := evs.countP isFinalize

/-- The scheduler loop of `src/sim/main.cpp` lines 26–35:
`while (!contextp->gotFinish()) { dut->eval(); tfp->dump(contextp->time());
contextp->timeInc(1); }`.  Arguments: the finish flag as seen at the top of
the loop, fuel (the loop itself has no bound; `none` means the run did not
stop within the given fuel), the model state, and the context time.
Returns the loop's event trace and the context time after the loop. -/
def simLoop (ev : σ → Nat → σ × Bool) :
    Bool → Nat → σ → Nat → Option (List Event × Nat)
  | true, _, _, t => some ([], t)
  | false, 0, _, _ => none
  | false, fuel + 1, s, t =>
    let p := ev s t
    match simLoop ev p.2 fuel p.1 (t + 1) with
    | none => none
    | some (evs, tf) =>
      some (Event.eval :: Event.dump t :: Event.timeInc 1 :: evs, tf)

/-- `k` consecutive iterations of the `main.cpp` loop body starting at
time `t`: evaluate, dump at the current time, advance time by exactly 1. -/
def loopBlocks : Nat → Nat → List Event
  | 0, _ => []
  | k + 1, t =>
    Event.eval :: Event.dump t :: Event.timeInc 1 :: loopBlocks k (t + 1)

/-- Events of `main.cpp` lines 10–21, up to and including the
`tfp->open("waveform.vcd")` call. -/
def preOpenEvents (argv : List String) : List Event :=
  [Event.commandArgs argv, Event.traceEverOn, Event.createDut,
   Event.attachTrace 99, Event.openTrace "waveform.vcd"]

/-- Events of `main.cpp` before the scheduler loop (lines 10–23). -/
def preEvents (argv : List String) : List Event :=
  preOpenEvents argv ++ [Event.printLine "Starting RV32I CPU simulation..."]

/-- Events of `main.cpp` after the scheduler loop (lines 38–42):
`dut->final(); tfp->close();` then the completion report. -/
def postEvents (tf : Nat) : List Event :=
  [Event.finalizeModel, Event.closeTrace,
   Event.printLine ("Simulation completed at time " ++ toString tf)]

/-- The `main` of `src/sim/main.cpp`, generalized over the value `g` of the
context's finish flag when the loop is first entered (the code enters the
loop with whatever `contextp->gotFinish()` reads at that point). -/
def simMainFrom (M : Model σ) (g : Bool) (fuel : Nat) (argv : List String) :
    Option SimResult :=
  match simLoop M.eval g fuel M.init 0 with
  | none => none
  | some (evs, tf) =>
    some ⟨preEvents argv ++ evs ++ postEvents tf, tf, 0⟩

/-- The `main` of `src/sim/main.cpp`: a fresh `VerilatedContext` starts with
time 0 and the finish flag down. -/
def simMain (M : Model σ) (fuel : Nat) (argv : List String) :
    Option SimResult :=
  simMainFrom M false fuel argv

/-- Outcome of a run in which the trace-sink `open` call may fail. -/
inductive RunOutcome where
  | aborted (events : List Event)
  | completed (r : SimResult)
deriving DecidableEq

/-- Modelled from the spec: `VerilatedVcdC::open` is library code not under
`src/`; per the spec it "fails fatally if the path is unwritable (no
recovery)".  This composes that behaviour with the driver code of
`src/sim/main.cpp`, where the `open` call (line 21) precedes the start
message and the scheduler loop: on a failed open the process aborts having
performed only the events up to the open attempt. -/
def simMainWithOpen (M : Model σ) (openOk : Bool) (fuel : Nat)
    (argv : List String) : Option RunOutcome :=
  if openOk then
    (simMain M fuel argv).map RunOutcome.completed
  else
    some (RunOutcome.aborted (preOpenEvents argv))

/-- Modelled from the spec: the legacy fixed-tick Clock Scheduler with an
optional IterationCeiling is not under `src/` (only the context-based
driver `src/sim/main.cpp` and the unit driver are).  Per the spec, the stop
condition "TerminationFlag is set OR SimulationTime reaches
IterationCeiling" is checked once per iteration before the next evaluate,
and each iteration evaluates, dumps at the current SimulationTime, and
increments SimulationTime by exactly 1. -/
def fixedTickLoop (ev : σ → Nat → σ × Bool) (ceiling : Option Nat) :
    Nat → σ → Nat → Bool → Option (List Event × Nat)
  | 0, _, t, fin =>
    if fin || (ceiling == some t) then some ([], t) else none
  | fuel + 1, s, t, fin =>
    if fin || (ceiling == some t) then some ([], t)
    else
      let p := ev s t
      match fixedTickLoop ev ceiling fuel p.1 (t + 1) (fin || p.2) with
      | none => none
      | some (evs, tf) =>
        some (Event.eval :: Event.dump t :: Event.timeInc 1 :: evs, tf)

/-- The `main` of `src/sim/main_unit.cpp`: `Verilated::commandArgs(argc,
argv)`, one console line, `return 0`.  No loop, no trace sink, no model
evaluation at this layer. -/
def unitMain (argv : List String) : List Event × Int :=
  ([Event.commandArgs argv,
    Event.printLine "Starting unit test simulation..."], 0)

/-! ### Helper lemmas -/

/-- Whatever the model and the fuel, a stopping run of the `main.cpp`
scheduler loop is some number `k` of identical iterations — evaluate, dump
at the current time, advance time by exactly 1 — and ends with the context
time advanced by exactly `k`. -/
theorem simLoop_shape (ev : σ → Nat → σ × Bool) (fuel : Nat) :
    ∀ (g : Bool) (s : σ) (t : Nat) (evs : List Event) (tf : Nat),
    simLoop ev g fuel s t = some (evs, tf) →
    ∃ k, evs = loopBlocks k t ∧ tf = t + k := by
  induction fuel with
  | zero =>
    intro g s t evs tf h
    cases g with
    | true =>
      simp only [simLoop, Option.some.injEq, Prod.mk.injEq] at h
      exact ⟨0, by simp [loopBlocks, ← h.1, ← h.2]⟩
    | false => simp [simLoop] at h
  | succ n ih =>
    intro g s t evs tf h
    cases g with
    | true =>
      simp only [simLoop, Option.some.injEq, Prod.mk.injEq] at h
      exact ⟨0, by simp [loopBlocks, ← h.1, ← h.2]⟩
    | false =>
      rw [simLoop] at h
      cases hrec : simLoop ev (ev s t).2 n (ev s t).1 (t + 1) with
      | none => rw [hrec] at h; simp at h
      | some p =>
        obtain ⟨evs', tf'⟩ := p
        obtain ⟨k, hk, htf⟩ := ih _ _ _ _ _ hrec
        rw [hrec] at h
        simp only [Option.some.injEq, Prod.mk.injEq] at h
        refine ⟨k + 1, ?_, ?_⟩
        · rw [← h.1, hk]; simp [loopBlocks]
        · omega

theorem dumpTimes_loopBlocks (k : Nat) :
    ∀ t, dumpTimes (loopBlocks k t) = List.range' t k := by
  induction k with
  | zero => intro t; simp [loopBlocks, dumpTimes]
  | succ n ih => intro t; simp [loopBlocks, dumpTimes, List.range'] at ih ⊢; exact ih (t + 1)

theorem stdoutLines_loopBlocks (k : Nat) :
    ∀ t, stdoutLines (loopBlocks k t) = [] := by
  induction k with
  | zero => intro t; simp [loopBlocks, stdoutLines]
  | succ n ih => intro t; simp [loopBlocks, stdoutLines] at ih ⊢; exact ih (t + 1)

theorem countP_loopBlocks (p : Event → Bool) (k : Nat) :
    ∀ t, (loopBlocks k t).countP p =
      k * ((if p Event.eval then 1 else 0) +
           (if p (Event.timeInc 1) then 1 else 0)) +
      ((List.range' t k).countP fun u => p (Event.dump u)) := by
  induction k with
  | zero => intro t; simp [loopBlocks]
  | succ n ih =>
    intro t
    simp only [loopBlocks, List.countP_cons, List.range', List.countP_cons, ih (t + 1)]
    ring_nf

theorem countEvals_loopBlocks (k t : Nat) :
    countEvals (loopBlocks k t) = k := by
  simp [countEvals, countP_loopBlocks, isEval, List.countP_eq_zero.mpr]

theorem countDumps_loopBlocks (k t : Nat) :
    countDumps (loopBlocks k t) = k := by
  have : ((List.range' t k).countP fun u => isDump (Event.dump u)) =
      (List.range' t k).length := by
    apply List.countP_eq_length.mpr; intro a _; rfl
  simp [countDumps, countP_loopBlocks, isDump, this]

theorem countTimeIncs_loopBlocks (k t : Nat) :
    countTimeIncs (loopBlocks k t) = k := by
  simp [countTimeIncs, countP_loopBlocks, isTimeInc, List.countP_eq_zero.mpr]

theorem countCloses_loopBlocks (k t : Nat) :
    countCloses (loopBlocks k t) = 0 := by
  simp [countCloses, countP_loopBlocks, isCloseTrace, List.countP_eq_zero.mpr]

theorem countFinalizes_loopBlocks (k t : Nat) :
    countFinalizes (loopBlocks k t) = 0 := by
  simp [countFinalizes, countP_loopBlocks, isFinalize, List.countP_eq_zero.mpr]

theorem countEvals_append (a b : List Event) :
    countEvals (a ++ b) = countEvals a + countEvals b := List.countP_append _ _ _

theorem countDumps_append (a b : List Event) :
    countDumps (a ++ b) = countDumps a + countDumps b := List.countP_append _ _ _

theorem countTimeIncs_append (a b : List Event) :
    countTimeIncs (a ++ b) = countTimeIncs a + countTimeIncs b := List.countP_append _ _ _

theorem countOpens_append (a b : List Event) :
    countOpens (a ++ b) = countOpens a + countOpens b := List.countP_append _ _ _

theorem countCloses_append (a b : List Event) :
    countCloses (a ++ b) = countCloses a + countCloses b := List.countP_append _ _ _

theorem countFinalizes_append (a b : List Event) :
    countFinalizes (a ++ b) = countFinalizes a + countFinalizes b := List.countP_append _ _ _

theorem stdoutLines_append (a b : List Event) :
    stdoutLines (a ++ b) = stdoutLines a ++ stdoutLines b := List.filterMap_append _ _ _

theorem dumpTimes_append (a b : List Event) :
    dumpTimes (a ++ b) = dumpTimes a ++ dumpTimes b := List.filterMap_append _ _ _

theorem countFinalizes_preEvents (argv : List String) :
    countFinalizes (preEvents argv) = 0 := rfl

theorem countCloses_preEvents (argv : List String) :
    countCloses (preEvents argv) = 0 := rfl

theorem countTimeIncs_preEvents (argv : List String) :
    countTimeIncs (preEvents argv) = 0 := rfl

theorem dumpTimes_preEvents (argv : List String) :
    dumpTimes (preEvents argv) = [] := rfl

theorem dumpTimes_postEvents (tf : Nat) : dumpTimes (postEvents tf) = [] := rfl

theorem countTimeIncs_postEvents (tf : Nat) :
    countTimeIncs (postEvents tf) = 0 := rfl

theorem stdoutLines_preEvents (argv : List String) :
    stdoutLines (preEvents argv) = ["Starting RV32I CPU simulation..."] := rfl

theorem stdoutLines_postEvents (tf : Nat) :
    stdoutLines (postEvents tf) =
      ["Simulation completed at time " ++ toString tf] := rfl

/-! ### Demo models used as concrete instances -/

/-- The C1 scenario model.  Its internal events at times 5, 5, 12, 12, 12,
40 are invisible to the driver (the driver treats `eval` as opaque); the
driver-visible effect is that the finish flag is raised during the `eval`
pass at time 40. -/
def c1Model : Model Unit := ⟨(), fun _ t => ((), t == 40)⟩

/-- A model that raises the finish flag during the `eval` pass at time 3. -/
def c2DemoModel : Model Unit := ⟨(), fun _ t => ((), t == 3)⟩

/-- A model eval that never raises the finish flag. -/
def c3NeverEv : Unit → Nat → Unit × Bool := fun _ _ => ((), false)

/-- A model eval that raises the finish flag at time 2. -/
def c5DemoEv : Unit → Nat → Unit × Bool := fun _ t => ((), t == 2)

/-- A model that raises the finish flag during the `eval` pass at time 2. -/
def c6DemoModel : Model Unit := ⟨(), fun _ t => ((), t == 2)⟩

/-- A model that raises the finish flag during the `eval` pass at time 1. -/
def c7DemoModel : Model Unit := ⟨(), fun _ t => ((), t == 1)⟩

/-- The concrete result of running `c2DemoModel`. -/
def c2DemoRes : SimResult := (simMain c2DemoModel 10 ["sim"]).getD ⟨[], 0, 0⟩

/-- The concrete result of running `c6DemoModel`. -/
def c6DemoRes : SimResult := (simMain c6DemoModel 10 ["sim"]).getD ⟨[], 0, 0⟩

/-- The concrete result of running `c7DemoModel`. -/
def c7DemoRes : SimResult := (simMain c7DemoModel 10 ["sim"]).getD ⟨[], 0, 0⟩

/-- `true` iff the run completed and its first `closeTrace` call comes
strictly before its first `finalizeModel` call. -/
def closeBeforeFinalize (res : Option SimResult) : Bool :=
  match res with
  | none => false
  | some r =>
    match r.events.findIdx? isCloseTrace, r.events.findIdx? isFinalize with
    | some i, some j => decide (i < j)
    | _, _ => false

/-! ### Claim theorems -/

/-- Claim C1: the claim says each Running→Running step of `main.cpp`
advances time to the next pending event (an increment that may exceed 1),
so the scenario model — internal events at 5, 5, 12, 12, 12, 40, finish
raised at time 40 — would see exactly 4 evaluate/dump pairs at times 5,
12, 40 and the finish-coincident one, with final reported time 40.  The
code instead calls `contextp->timeInc(1)` every iteration (contradicting
its own comment "Advance time to next event"): the run performs 41
evaluate/dump pairs, one at every time 0..40, every time increment is
exactly 1, and the reported final time is 41. -/
theorem c1_fixed_increment_not_event_advance :
    (simMain c1Model 60 ["sim"]).map
      (fun r => (countEvals r.events, countDumps r.events,
                 countTimeIncs r.events,
                 r.events.countP (fun e => e == Event.timeInc 1),
                 r.finalTime)) =
    some (41, 41, 41, 41, 41) := by rfl

/-- Claim C2, counterexample: on a concrete completed run of the
context-based driver, the first `closeTrace` call does not precede the
first `finalizeModel` call — the code runs `dut->final()` before
`tfp->close()`. -/
theorem c2_close_first_counterexample :
    (simMain c2DemoModel 10 ["sim"]).isSome = true ∧
    closeBeforeFinalize (simMain c2DemoModel 10 ["sim"]) = false := by
  exact ⟨rfl, rfl⟩

/-- Claim C2, amended: in the context-based driver, after the scheduler
loop stops the model is finalized first and the trace sink is closed
immediately afterwards — `finalize` precedes `close` on every completed
run, and neither call occurs before the loop ends. -/
theorem c2_finalize_precedes_close (M : Model σ) (fuel : Nat)
    (argv : List String) (r : SimResult) (h : simMain M fuel argv = some r) :
    ∃ l, r.events = l ++ [Event.finalizeModel, Event.closeTrace,
        Event.printLine ("Simulation completed at time " ++ toString r.finalTime)] ∧
      countFinalizes l = 0 ∧ countCloses l = 0 := by
  rw [simMain, simMainFrom] at h
  cases hrec : simLoop M.eval false fuel M.init 0 with
  | none => rw [hrec] at h; simp at h
  | some p =>
    obtain ⟨evs, tf⟩ := p
    obtain ⟨k, hk, htf⟩ := simLoop_shape M.eval fuel false M.init 0 evs tf hrec
    rw [hrec] at h
    simp only [Option.some.injEq] at h
    refine ⟨preEvents argv ++ loopBlocks k 0, ?_, ?_, ?_⟩
    · rw [← h]
      simp [hk, postEvents]
    · rw [countFinalizes_append, countFinalizes_preEvents,
        countFinalizes_loopBlocks]
    · rw [countCloses_append, countCloses_preEvents, countCloses_loopBlocks]

/-- Claim C2, amended, witness at a concrete run. -/
theorem c2_finalize_precedes_close_witness :
    ∃ l, c2DemoRes.events = l ++ [Event.finalizeModel, Event.closeTrace,
        Event.printLine ("Simulation completed at time " ++ toString c2DemoRes.finalTime)] ∧
      countFinalizes l = 0 ∧ countCloses l = 0 :=
  c2_finalize_precedes_close c2DemoModel 10 ["sim"] c2DemoRes (by rfl)

/-- For a model that never raises the finish flag, the spec-modelled
fixed-tick loop with ceiling `c`, started at time `t ≤ c` with enough
fuel, runs exactly `c - t` iterations and stops with the counter at `c`. -/
theorem fixedTick_never_shape (ev : σ → Nat → σ × Bool)
    (hev : ∀ s t, (ev s t).2 = false) (c : Nat) :
    ∀ (fuel t : Nat) (s : σ), t ≤ c → c - t ≤ fuel →
    fixedTickLoop ev (some c) fuel s t false =
      some (loopBlocks (c - t) t, c) := by
  intro fuel
  induction fuel with
  | zero =>
    intro t s ht hf
    have hc : t = c := by omega
    subst hc
    simp [fixedTickLoop, loopBlocks]
  | succ n ih =>
    intro t s ht hf
    by_cases hc : t = c
    · subst hc
      simp [fixedTickLoop, loopBlocks]
    · have hbeq : ((some c == some t) : Bool) = false := by
        simp only [beq_eq_false_iff_ne, ne_eq, Option.some.injEq]
        omega
      have hrec := ih (t + 1) (ev s t).1 (by omega) (by omega)
      rw [fixedTickLoop]
      simp only [hbeq, Bool.false_or, Bool.false_eq_true, if_false, hev,
        Bool.or_false, hrec]
      have hk : c - t = (c - (t + 1)) + 1 := by omega
      rw [hk, loopBlocks]

/-- Claim C3: in the fixed-tick variant (modelled from the spec — the
legacy fixed-tick driver with an IterationCeiling is not under `src/`),
when an IterationCeiling is configured the run stops at the first
iteration with TerminationFlag set or SimulationTime equal to the ceiling:
with the flag set the loop stops at once with no further events, and with
ceiling 100 and a model that never raises the flag the loop runs exactly
100 iterations (100 evaluate/dump pairs) and the final reported time is
100. -/
theorem c3_fixed_tick_ceiling (ev : σ → Nat → σ × Bool) (s s0 : σ)
    (t fuel : Nat) (hev : ∀ s t, (ev s t).2 = false) (hf : 100 ≤ fuel) :
    fixedTickLoop ev (some 100) fuel s0 t true = some ([], t) ∧
    (fixedTickLoop ev (some 100) fuel s 0 false).map
      (fun p => (countEvals p.1, countDumps p.1, p.2)) =
      some (100, 100, 100) := by
  constructor
  · cases fuel <;> simp [fixedTickLoop]
  · rw [fixedTick_never_shape ev hev 100 fuel 0 s (by omega) (by omega)]
    simp [countEvals_loopBlocks, countDumps_loopBlocks]

/-- Claim C3, witness: the never-finishing model with ceiling 100 and fuel
100 runs exactly 100 evaluate/dump pairs and stops at time 100. -/
theorem c3_fixed_tick_ceiling_witness :
    (c3NeverEv () 5).2 = false ∧ 100 ≤ 100 ∧
    (fixedTickLoop c3NeverEv (some 100) 100 () 37 true = some ([], 37) ∧
     (fixedTickLoop c3NeverEv (some 100) 100 () 0 false).map
       (fun p => (countEvals p.1, countDumps p.1, p.2)) =
       some (100, 100, 100)) :=
  ⟨rfl, by omega,
   c3_fixed_tick_ceiling c3NeverEv () () 37 100 (fun _ _ => rfl) (by omega)⟩

/-- Claim C4: when the trace-file open fails (the fatal-failure semantics
of the library `open` is modelled from the spec; the driver calls `open`
on line 21, before the loop), the run aborts having performed no evaluate,
no dump, and no close — only the setup calls up to the open attempt. -/
theorem c4_open_failure_no_eval_dump (M : Model σ) (fuel : Nat)
    (argv : List String) :
    simMainWithOpen M false fuel argv =
      some (RunOutcome.aborted (preOpenEvents argv)) ∧
    countEvals (preOpenEvents argv) = 0 ∧
    countDumps (preOpenEvents argv) = 0 ∧
    countCloses (preOpenEvents argv) = 0 := by
  refine ⟨?_, rfl, rfl, rfl⟩
  simp [simMainWithOpen]

/-- Claim C5: every stopping run of the `main.cpp` scheduler loop is a
sequence of identical steps, each performing in order one model evaluate,
one dump at the current SimulationTime, then a time increment of exactly
1; hence evaluation precedes the trace sample bearing the same timestamp
and the dump timestamps are exactly the successive time values. -/
theorem c5_loop_step_shape (ev : σ → Nat → σ × Bool) (fuel : Nat)
    (g : Bool) (s : σ) (t : Nat) (evs : List Event) (tf : Nat)
    (h : simLoop ev g fuel s t = some (evs, tf)) :
    ∃ k, evs = loopBlocks k t ∧ tf = t + k ∧
      dumpTimes evs = List.range' t k := by
  obtain ⟨k, hk, htf⟩ := simLoop_shape ev fuel g s t evs tf h
  exact ⟨k, hk, htf, by rw [hk, dumpTimes_loopBlocks]⟩

/-- Claim C5, witness at a concrete three-iteration run. -/
theorem c5_loop_step_shape_witness :
    ∃ k, loopBlocks 3 0 = loopBlocks k 0 ∧ 3 = 0 + k ∧
      dumpTimes (loopBlocks 3 0) = List.range' 0 k :=
  c5_loop_step_shape c5DemoEv 10 false () 0 (loopBlocks 3 0) 3 (by rfl)

/-- Claim C6: on every completed run of `main.cpp`, SimulationTime starts
at 0 and the dump timestamps are 0, 1, ..., k-1 in order (hence
non-decreasing), the final time equals the number of loop iterations, and
no time advancement happens outside the scheduler loop. -/
theorem c6_time_monotone (M : Model σ) (fuel : Nat) (argv : List String)
    (r : SimResult) (h : simMain M fuel argv = some r) :
    ∃ k, r.events = preEvents argv ++ loopBlocks k 0 ++
        postEvents r.finalTime ∧
      r.finalTime = k ∧
      dumpTimes r.events = List.range k ∧
      List.Sorted (· ≤ ·) (dumpTimes r.events) ∧
      countTimeIncs (preEvents argv) = 0 ∧
      countTimeIncs (postEvents r.finalTime) = 0 := by
  rw [simMain, simMainFrom] at h
  cases hrec : simLoop M.eval false fuel M.init 0 with
  | none => rw [hrec] at h; simp at h
  | some p =>
    obtain ⟨evs, tf⟩ := p
    obtain ⟨k, hk, htf⟩ := simLoop_shape M.eval fuel false M.init 0 evs tf hrec
    rw [hrec] at h
    simp only [Option.some.injEq] at h
    subst h
    dsimp only
    have hdt : dumpTimes (preEvents argv ++ evs ++ postEvents tf) =
        List.range k := by
      rw [dumpTimes_append, dumpTimes_append, dumpTimes_preEvents,
        dumpTimes_postEvents, hk, dumpTimes_loopBlocks]
      simp [List.range_eq_range']
    refine ⟨k, ?_, by omega, hdt, ?_,
      countTimeIncs_preEvents argv, countTimeIncs_postEvents _⟩
    · rw [hk]
    · rw [hdt]
      exact List.sorted_le_range k

/-- Claim C6, witness at a concrete run. -/
theorem c6_time_monotone_witness :
    ∃ k, c6DemoRes.events = preEvents ["sim"] ++ loopBlocks k 0 ++
        postEvents c6DemoRes.finalTime ∧
      c6DemoRes.finalTime = k ∧
      dumpTimes c6DemoRes.events = List.range k ∧
      List.Sorted (· ≤ ·) (dumpTimes c6DemoRes.events) ∧
      countTimeIncs (preEvents ["sim"]) = 0 ∧
      countTimeIncs (postEvents c6DemoRes.finalTime) = 0 :=
  c6_time_monotone c6DemoModel 10 ["sim"] c6DemoRes (by rfl)

/-- Claim C7: every completed run of `main.cpp` prints exactly two status
lines — the start announcement and the completion report carrying the
final SimulationTime — and exits with code 0. -/
theorem c7_console_report (M : Model σ) (fuel : Nat) (argv : List String)
    (r : SimResult) (h : simMain M fuel argv = some r) :
    stdoutLines r.events =
      ["Starting RV32I CPU simulation...",
       "Simulation completed at time " ++ toString r.finalTime] ∧
    r.exitCode = 0 := by
  rw [simMain, simMainFrom] at h
  cases hrec : simLoop M.eval false fuel M.init 0 with
  | none => rw [hrec] at h; simp at h
  | some p =>
    obtain ⟨evs, tf⟩ := p
    obtain ⟨k, hk, htf⟩ := simLoop_shape M.eval fuel false M.init 0 evs tf hrec
    rw [hrec] at h
    simp only [Option.some.injEq] at h
    subst h
    refine ⟨?_, rfl⟩
    rw [stdoutLines_append, stdoutLines_append, stdoutLines_preEvents,
      stdoutLines_postEvents, hk, stdoutLines_loopBlocks]
    rfl

/-- Claim C7, witness at a concrete run. -/
theorem c7_console_report_witness :
    stdoutLines c7DemoRes.events =
      ["Starting RV32I CPU simulation...",
       "Simulation completed at time " ++ toString c7DemoRes.finalTime] ∧
    c7DemoRes.exitCode = 0 :=
  c7_console_report c7DemoModel 10 ["sim"] c7DemoRes (by rfl)

/-- Claim C8: the unit-test driver performs no evaluate, no dump, no time
increment, no trace open/close, and no model finalize — its whole run is
the process-wide initialization call carrying the command-line arguments,
one console line, and return value 0. -/
theorem c8_unit_no_loop_no_trace (argv : List String) :
    unitMain argv =
      ([Event.commandArgs argv,
        Event.printLine "Starting unit test simulation..."], 0) ∧
    countEvals (unitMain argv).1 = 0 ∧
    countDumps (unitMain argv).1 = 0 ∧
    countTimeIncs (unitMain argv).1 = 0 ∧
    countOpens (unitMain argv).1 = 0 ∧
    countCloses (unitMain argv).1 = 0 ∧
    countFinalizes (unitMain argv).1 = 0 :=
  ⟨rfl, rfl, rfl, rfl, rfl, rfl, rfl⟩

/-- Claim C9: if the finish flag is already up when `main.cpp` reaches the
loop, the loop body runs zero times — no evaluate, no dump — while the
trace file is still opened and closed once, the model is finalized once,
the completion line reports time 0, and the exit code is 0. -/
theorem c9_preraised_flag_skips_loop (M : Model σ) (fuel : Nat)
    (argv : List String) :
    simMainFrom M true fuel argv =
      some ⟨preEvents argv ++ postEvents 0, 0, 0⟩ ∧
    countEvals (preEvents argv ++ postEvents 0) = 0 ∧
    countDumps (preEvents argv ++ postEvents 0) = 0 ∧
    countOpens (preEvents argv ++ postEvents 0) = 1 ∧
    countCloses (preEvents argv ++ postEvents 0) = 1 ∧
    countFinalizes (preEvents argv ++ postEvents 0) = 1 ∧
    stdoutLines (preEvents argv ++ postEvents 0) =
      ["Starting RV32I CPU simulation...",
       "Simulation completed at time 0"] := by
  refine ⟨?_, rfl, rfl, rfl, rfl, rfl, rfl⟩
  simp [simMainFrom, simLoop, preEvents, postEvents]

/-- Claim C10: the unit-test driver prints exactly one line — the start
announcement — and returns 0, and its console output is independent of
the command-line arguments; in particular no completion or final-time
line is ever printed. -/
theorem c10_unit_output_independent_of_args (argv argv2 : List String) :
    stdoutLines (unitMain argv).1 = ["Starting unit test simulation..."] ∧
    (stdoutLines (unitMain argv).1).length = 1 ∧
    (unitMain argv).2 = 0 ∧
    stdoutLines (unitMain argv).1 = stdoutLines (unitMain argv2).1 :=
  ⟨rfl, rfl, rfl, rfl⟩

end SimDriver
